import Mathlib

/-!
Verification development for the Nexus Prime fabric control plane
(`nexus-prime-core/src/lib.rs`).

The `FabricManager` operations are embedded as pure functions over an
explicit manager state.  Rust `HashMap`s are modelled as association lists
(`List (String × α)`) with replace-on-insert semantics; `chrono`
timestamps are modelled as `Int` seconds, so `chrono::Duration::num_minutes`
becomes truncated division by 60 (`Int.tdiv`, which rounds toward zero
exactly like Rust's `i64` division).  The `sled` store is modelled by the
decoded content under the single key `fabric_state` (an `Option FabricState`);
`bincode` serialize/deserialize is an external crate whose round-trip
contract we take as given, so `put(fabric_state, encode(s)); flush()`
is modelled as storing `some s`.  External effects that feed back into the
code — dial outcomes and remote RPC responses — are passed in as parameters:
`rpc = none` models a failed invocation (`Err`), `rpc = some st` models
`Ok(response)` with `response.status == st`.

Lock usage (which guard is held across which call) is modelled separately,
as per-operation action traces read off the source line by line, at the end
of the definitions section.
-/

/-- Lookup in an association list: first entry with the given key, as
`HashMap::get`. -/
def mapGet {α : Type} (m : List (String × α)) (k : String) : Option α :=
  (m.find? (fun p => p.1 == k)).map (fun p => p.2)

/-- Insert with replacement, as `HashMap::insert` / mutation through
`HashMap::get_mut`: all entries under the key are replaced by the new
binding. -/
def mapInsert {α : Type} (m : List (String × α)) (k : String) (v : α) :
    List (String × α) :=
  (m.filter (fun p => !(p.1 == k))) ++ [(k, v)]

/-- Removal, as `HashMap::remove`. -/
def mapRemove {α : Type} (m : List (String × α)) (k : String) :
    List (String × α) :=
  m.filter (fun p => !(p.1 == k))

/-- Model of `chrono::Duration::num_minutes` on a duration of `secs`
seconds: division by 60 truncating toward zero (Rust `i64` division). -/
def numMinutes (secs : Int) : Int := Int.tdiv secs 60

/-- Struct `ComputeNode` (lib.rs lines 22-31); `last_seen` is a UTC
timestamp in seconds. -/
structure ComputeNode where
  id : String
  node_type : String
  last_seen : Int
  status : String
  capabilities : String
  ip_address : String
  proxy_listen_address : Option String
  deriving Repr

/-- Struct `AIAgent` (lib.rs lines 33-42). -/
structure AIAgent where
  id : String
  name : String
  agent_type : String
  assigned_node_id : Option String
  status : String
  current_task : Option String
  task_progress : Option Float
  deriving Repr

/-- Struct `FabricState` (lib.rs lines 44-48). -/
structure FabricState where
  compute_nodes : List (String × ComputeNode)
  ai_agents : List (String × AIAgent)
  deriving Repr

/-- Enum `InternalFabricEvent` (lib.rs lines 50-58). -/
inductive InternalFabricEvent where
  | NodeRegistered (node : ComputeNode)
  | NodeStatusUpdate (node_id : String) (status : String)
      (telemetry_summary : Option String)
  | NodePruned (node_id : String)
  | AgentRegistered (agent : AIAgent)
  | AgentStatusUpdate (agent_id : String) (status : String)
      (task : Option String) (progress : Option Float)
  | FabricCommandIssued (command_type : String) (target_id : String)
  deriving Repr

/-- Wire message `FabricEvent` as populated by the core (`telemetry` is
always `None` there). -/
structure FabricEvent where
  event_id : String
  timestamp : String
  event_type : String
  message : String
  metadata : List (String × String)
  telemetry : Option String
  deriving Repr

/-- Function `FabricManager::convert_event` (lib.rs lines 104-173).  The
freshly generated uuid and the `Utc::now().to_rfc3339()` timestamp are
nondeterministic inputs, passed as the first two arguments. -/
def convert_event (event_id timestamp : String)
    (event : InternalFabricEvent) : FabricEvent :=
  match event with
  | .NodeRegistered node =>
      { event_id := event_id, timestamp := timestamp,
        event_type := "NODE_REGISTERED",
        message := "Node registered: " ++ node.id,
        metadata := [], telemetry := none }
  | .NodeStatusUpdate node_id status _telemetry_summary =>
      { event_id := event_id, timestamp := timestamp,
        event_type := "NODE_STATUS_UPDATE",
        message := "Node " ++ node_id ++ " status updated: " ++ status,
        metadata := [], telemetry := none }
  | .NodePruned node_id =>
      { event_id := event_id, timestamp := timestamp,
        event_type := "NODE_PRUNED",
        message := "Node pruned: " ++ node_id,
        metadata := [], telemetry := none }
  | .AgentRegistered agent =>
      { event_id := event_id, timestamp := timestamp,
        event_type := "AGENT_REGISTERED",
        message := "Agent registered: " ++ agent.id,
        metadata := [], telemetry := none }
  | .AgentStatusUpdate agent_id status task progress =>
      { event_id := event_id, timestamp := timestamp,
        event_type := "AGENT_STATUS_UPDATE",
        message := "Agent " ++ agent_id ++ " status updated: " ++ status,
        metadata :=
          (match task with
           | some t => [("current_task", t)]
           | none => []) ++
          (match progress with
           | some p => [("task_progress", toString p)]
           | none => []),
        telemetry := none }
  | .FabricCommandIssued command_type target_id =>
      { event_id := event_id, timestamp := timestamp,
        event_type := "FABRIC_COMMAND_ISSUED",
        message := "Command issued: " ++ command_type ++ " to " ++ target_id,
        metadata := [], telemetry := none }

/-- Manager state: the registry, the decoded content of the sled key
`fabric_state`, and the set of node ids holding a cached gRPC client
(the `node_clients` pool). -/
structure ManagerState where
  state : FabricState
  db : Option FabricState
  clients : List String
  deriving Repr

/-- Function `FabricManager::save_state` (lib.rs lines 95-102):
serialize the registry, `insert` under `fabric_state`, flush. -/
def save_state (ms : ManagerState) : ManagerState :=
  { ms with db := some ms.state }

/-- Function `FabricManager::register_node` (lib.rs lines 189-212).
`dial_ok` is the outcome of `Channel::from_shared(..)` + `connect()`:
on success (and only if `proxy_listen_address` is present) the client is
cached in the pool.  Regardless, the node is inserted, `NodeRegistered`
is broadcast, and the state is saved. -/
def register_node (ms : ManagerState) (node : ComputeNode)
    (dial_ok : Bool) : ManagerState × List InternalFabricEvent :=
  let clients :=
    match node.proxy_listen_address with
    | some _ => if dial_ok then node.id :: ms.clients else ms.clients
    | none => ms.clients
  let st := { ms.state with
    compute_nodes := mapInsert ms.state.compute_nodes node.id node }
  (save_state { state := st, db := ms.db, clients := clients },
   [.NodeRegistered node])

/-- Function `FabricManager::update_node_status` (lib.rs lines 215-228).
`now` is the value of `chrono::Utc::now()` at the accepted update.  The
telemetry argument is ignored by the source (`_telemetry`). -/
def update_node_status (ms : ManagerState) (node_id status : String)
    (now : Int) : ManagerState × List InternalFabricEvent :=
  match mapGet ms.state.compute_nodes node_id with
  | some node =>
      let node' := { node with status := status, last_seen := now }
      let st := { ms.state with
        compute_nodes := mapInsert ms.state.compute_nodes node_id node' }
      (save_state { ms with state := st },
       [.NodeStatusUpdate node_id status none])
  | none => (ms, [])

/-- Function `FabricManager::register_ai_agent` (lib.rs lines 231-239). -/
def register_ai_agent (ms : ManagerState) (agent : AIAgent) :
    ManagerState × List InternalFabricEvent :=
  let st := { ms.state with
    ai_agents := mapInsert ms.state.ai_agents agent.id agent }
  (save_state { ms with state := st }, [.AgentRegistered agent])

/-- Function `FabricManager::update_ai_agent_status` (lib.rs lines 242-256). -/
def update_ai_agent_status (ms : ManagerState) (agent_id status : String)
    (current_task : Option String) (task_progress : Option Float) :
    ManagerState × List InternalFabricEvent :=
  match mapGet ms.state.ai_agents agent_id with
  | some agent =>
      let agent' := { agent with
        status := status, current_task := current_task,
        task_progress := task_progress }
      let st := { ms.state with
        ai_agents := mapInsert ms.state.ai_agents agent_id agent' }
      (save_state { ms with state := st },
       [.AgentStatusUpdate agent_id status current_task task_progress])
  | none => (ms, [])

/-- Function `FabricManager::issue_command` (lib.rs lines 258-262): the
command is forwarded to the command channel (an external effect) and
`FabricCommandIssued` is broadcast; the registry is untouched and no
snapshot is taken. -/
def issue_command (ms : ManagerState) (command_type target_id : String) :
    ManagerState × List InternalFabricEvent :=
  (ms, [.FabricCommandIssued command_type target_id])

/-- Node staleness predicate of `prune_stale_entities` (lib.rs line 270):
`(now - node.last_seen).num_minutes() > 5`. -/
def nodeStale (now : Int) (node : ComputeNode) : Bool :=
  decide (5 < numMinutes (now - node.last_seen))

/-- Agent staleness predicate of `prune_stale_entities` (lib.rs line 280):
`(now - agent.assigned_node_id.as_ref().map_or(now, |_| Utc::now())).num_minutes() > 10`.
The inner `Utc::now()` is a second clock reading taken during the scan,
strictly per agent; it is supplied as `later id`. -/
def agentStale (now : Int) (later : String → Int) (id : String)
    (agent : AIAgent) : Bool :=
  decide (10 < numMinutes (now -
    (match agent.assigned_node_id with
     | some _ => later id
     | none => now)))

/-- Vec `stale_nodes` of `prune_stale_entities` (lib.rs lines 267-273). -/
def staleNodeIds (ms : ManagerState) (now : Int) : List String :=
  (ms.state.compute_nodes.filter (fun p => nodeStale now p.2)).map
    (fun p => p.1)

/-- Vec `stale_agents` of `prune_stale_entities` (lib.rs lines 268, 279-283). -/
def staleAgentIds (ms : ManagerState) (now : Int) (later : String → Int) :
    List String :=
  (ms.state.ai_agents.filter (fun p => agentStale now later p.1 p.2)).map
    (fun p => p.1)

/-- Function `FabricManager::prune_stale_entities` (lib.rs lines 264-294):
collect stale node ids, remove each and broadcast `NodePruned`; collect
stale agent ids, remove each (no event); save only if anything changed. -/
def prune_stale_entities (ms : ManagerState) (now : Int)
    (later : String → Int) : ManagerState × List InternalFabricEvent :=
  let stale_nodes := staleNodeIds ms now
  let nodes' :=
    ms.state.compute_nodes.filter (fun p => !(stale_nodes.contains p.1))
  let stale_agents := staleAgentIds ms now later
  let agents' :=
    ms.state.ai_agents.filter (fun p => !(stale_agents.contains p.1))
  let st := { compute_nodes := nodes', ai_agents := agents' : FabricState }
  let ms' := { ms with state := st }
  (if stale_nodes.isEmpty && stale_agents.isEmpty then ms'
   else save_state ms',
   stale_nodes.map .NodePruned)

/-- Function `FabricManager::deploy_agent` (lib.rs lines 298-363).
`fresh_uuid` is the uuid minted at line 302 (`agent-<uuid>`); `rpc` is
the outcome of `client.deploy_agent(..)`: `none` for `Err(e)`, `some st`
for `Ok(response)` with `response.into_inner().status == st`.

On `Ok`, the lock is reacquired and the registry consulted again for the
fresh id (lines 336-341): if an entry exists its status is set to
`Running`/`Failed`, otherwise the proto-agent (status `Deploying`) is
inserted as-is; `AgentRegistered` then carries `new_agent`.  In every
path the function ends with `save_state`. -/
def deploy_agent (ms : ManagerState) (target_node_id name agent_type
    fresh_uuid : String) (rpc : Option String) :
    ManagerState × List InternalFabricEvent :=
  match mapGet ms.state.compute_nodes target_node_id with
  | some node =>
    if node.status == "Online" then
      let agent_id := "agent-" ++ fresh_uuid
      let new_agent : AIAgent :=
        { id := agent_id, name := name, agent_type := agent_type,
          assigned_node_id := some target_node_id,
          status := "Deploying", current_task := none,
          task_progress := none }
      if ms.clients.contains target_node_id then
        match rpc with
        | some resp_status =>
            let st' :=
              match mapGet ms.state.ai_agents agent_id with
              | some agent =>
                  { ms.state with ai_agents :=
                      (mapInsert ms.state.ai_agents agent_id
                        { agent with status :=
                            if resp_status == "SUCCESS" then "Running"
                            else "Failed" }) }
              | none =>
                  { ms.state with ai_agents :=
                      (mapInsert ms.state.ai_agents agent_id new_agent) }
            (save_state { ms with state := st' },
             [.AgentRegistered new_agent])
        | none => (save_state ms, [])
      else (save_state ms, [])
    else (save_state ms, [])
  | none => (save_state ms, [])

/-- Function `FabricManager::stop_agent` (lib.rs lines 365-422).
`rpc` as in `deploy_agent`.  On `Ok`, the lock is reacquired and the
agent looked up again (line 391); its status becomes `Stopped` on
`SUCCESS`, `Error` otherwise, and `AgentStatusUpdate` is broadcast with
the updated agent's fields.  On `Err` or any failed precondition, only a
warning is logged.  Every path ends with `save_state`. -/
def stop_agent (ms : ManagerState) (agent_id : String)
    (rpc : Option String) : ManagerState × List InternalFabricEvent :=
  match mapGet ms.state.ai_agents agent_id with
  | some agent =>
    match agent.assigned_node_id with
    | some node_id =>
      if ms.clients.contains node_id then
        match rpc with
        | some resp_status =>
          match mapGet ms.state.ai_agents agent_id with
          | some agent2 =>
              let agent' := { agent2 with status :=
                if resp_status == "SUCCESS" then "Stopped" else "Error" }
              let st' := { ms.state with ai_agents :=
                (mapInsert ms.state.ai_agents agent_id agent') }
              (save_state { ms with state := st' },
               [.AgentStatusUpdate agent_id agent'.status
                  agent'.current_task agent'.task_progress])
          | none => (save_state ms, [])
        | none => (save_state ms, [])
      else (save_state ms, [])
    | none => (save_state ms, [])
  | none => (save_state ms, [])

/-- Function `FabricManager::migrate_agent` (lib.rs lines 424-452):
destination must exist (else early return, no save); the agent's
`assigned_node_id` and status are updated, `AgentStatusUpdate` is
broadcast, and the state saved; a missing agent only warns (no save). -/
def migrate_agent (ms : ManagerState) (agent_id destination_node_id : String) :
    ManagerState × List InternalFabricEvent :=
  match mapGet ms.state.compute_nodes destination_node_id with
  | none => (ms, [])
  | some _ =>
    match mapGet ms.state.ai_agents agent_id with
    | some agent =>
        let agent' := { agent with
          assigned_node_id := some destination_node_id,
          status := "Migrating" }
        let st' := { ms.state with ai_agents :=
          (mapInsert ms.state.ai_agents agent_id agent') }
        (save_state { ms with state := st' },
         [.AgentStatusUpdate agent_id agent'.status agent'.current_task
            agent'.task_progress])
    | none => (ms, [])

/-- One FabricManager operation together with its external inputs (clock
readings, dial outcome, RPC response). -/
inductive FabricOp where
  | registerNode (node : ComputeNode) (dial_ok : Bool)
  | updateNodeStatus (node_id status : String) (now : Int)
  | registerAiAgent (agent : AIAgent)
  | updateAiAgentStatus (agent_id status : String)
      (current_task : Option String) (task_progress : Option Float)
  | issueCommand (command_type target_id : String)
  | pruneStale (now : Int) (later : String → Int)
  | deployAgent (target_node_id name agent_type fresh_uuid : String)
      (rpc : Option String)
  | stopAgent (agent_id : String) (rpc : Option String)
  | migrateAgent (agent_id destination_node_id : String)

/-- Dispatch one operation. -/
def applyOp (ms : ManagerState) (op : FabricOp) :
    ManagerState × List InternalFabricEvent :=
  match op with
  | .registerNode node dial_ok => register_node ms node dial_ok
  | .updateNodeStatus node_id status now =>
      update_node_status ms node_id status now
  | .registerAiAgent agent => register_ai_agent ms agent
  | .updateAiAgentStatus agent_id status task progress =>
      update_ai_agent_status ms agent_id status task progress
  | .issueCommand command_type target_id =>
      issue_command ms command_type target_id
  | .pruneStale now later => prune_stale_entities ms now later
  | .deployAgent target name agent_type fresh_uuid rpc =>
      deploy_agent ms target name agent_type fresh_uuid rpc
  | .stopAgent agent_id rpc => stop_agent ms agent_id rpc
  | .migrateAgent agent_id dest => migrate_agent ms agent_id dest

/-- Run a sequence of operations. -/
def applyOps (ms : ManagerState) (ops : List FabricOp) : ManagerState :=
  ops.foldl (fun m op => (applyOp m op).1) ms

/-- One step in a lock-usage trace of a `FabricManager` method: `acquire`
and `release` refer to the registry mutex (`self.state.lock().await` and
the corresponding `MutexGuard` drop); `publish` is `broadcast_event`;
`snapshot` is the sled `insert` + `flush_async` inside `save_state`;
`rpc` is an outbound gRPC invocation. -/
inductive LockAction where
  | acquire
  | release
  | publish
  | snapshot
  | rpc
  deriving Repr, DecidableEq

/-- Body of `save_state` (lib.rs lines 95-102): it takes the registry
lock itself (line 96), writes and flushes, and drops the guard at the end
of the function. -/
def save_state_trace : List LockAction := [.acquire, .snapshot, .release]

/-- Trace of `register_node` (lib.rs lines 189-212): the guard taken at
line 190 lives to the end of the function body, so `broadcast_event`
(line 208) and the `save_state` call (line 209) both run while it is
held; the guard's drop is the final `release`. -/
def register_node_trace : List LockAction :=
  [.acquire, .publish] ++ save_state_trace ++ [.release]

/-- Trace of the success path of `deploy_agent` (lib.rs lines 298-349):
the guard from line 299 and the client-pool guard are dropped at lines
319-320 before the RPC (line 330); the follow-up mutation reacquires at
line 336 and drops at line 342; `save_state` runs last (line 360). -/
def deploy_agent_ok_trace : List LockAction :=
  [.acquire, .release, .rpc, .acquire, .release, .publish] ++
    save_state_trace

/-- Check of a trace: `true` when some `publish`, `snapshot` or `rpc`
action happens while the registry lock is held (depth above zero). -/
def blockingWhileLocked : List LockAction → Nat → Bool
  | [], _ => false
  | .acquire :: rest, depth => blockingWhileLocked rest (depth + 1)
  | .release :: rest, depth => blockingWhileLocked rest (depth - 1)
  | _ :: rest, 0 => blockingWhileLocked rest 0
  | _ :: _, _ + 1 => true

/-- Check of a trace: `true` when the registry lock is acquired while
already held by the same call chain — with `tokio::sync::Mutex` (not
re-entrant) the inner `lock().await` then never completes. -/
def selfDeadlock : List LockAction → Nat → Bool
  | [], _ => false
  | .acquire :: _, _ + 1 => true
  | .acquire :: rest, 0 => selfDeadlock rest 1
  | .release :: rest, depth => selfDeadlock rest (depth - 1)
  | _ :: rest, depth => selfDeadlock rest depth

theorem mapGet_mapInsert_self {α : Type} (m : List (String × α))
    (k : String) (v : α) : mapGet (mapInsert m k v) k = some v := by
  unfold mapGet mapInsert
  rw [List.find?_append]
  have h1 : (m.filter (fun p => !(p.1 == k))).find? (fun p => p.1 == k)
      = none := by
    rw [List.find?_eq_none]
    intro p hp
    rcases List.mem_filter.1 hp with ⟨_, hkeep⟩
    simp only [Bool.not_eq_true'] at hkeep
    simp [hkeep]
  rw [h1]
  simp [List.find?]

theorem mapGet_mapInsert_ne {α : Type} (m : List (String × α))
    (k k' : String) (v : α) (h : k' ≠ k) :
    mapGet (mapInsert m k v) k' = mapGet m k' := by
  unfold mapGet mapInsert
  rw [List.find?_append]
  have hkk : (k == k') = false := by simp [Ne.symm h]
  have h2 : List.find? (fun p => p.1 == k') [(k, v)] = none := by
    simp [List.find?, hkk]
  rw [h2, Option.or_none]
  have h3 : (m.filter (fun p => !(p.1 == k))).find? (fun p => p.1 == k')
      = m.find? (fun p => p.1 == k') := by
    induction m with
    | nil => rfl
    | cons a t ih =>
      by_cases ha : a.1 = k
      · simp [List.filter_cons, ha, List.find?_cons, hkk, ih]
      · by_cases ha' : a.1 = k'
        · simp [List.filter_cons, ha, List.find?_cons, ha', h]
        · simp [List.filter_cons, ha, List.find?_cons, ha', ih]
  rw [h3]

theorem mapGet_some_mem {α : Type} {m : List (String × α)} {k : String}
    {v : α} (h : mapGet m k = some v) : (k, v) ∈ m := by
  unfold mapGet at h
  rcases Option.map_eq_some'.1 h with ⟨q, hfind, hv⟩
  rcases q with ⟨a, b⟩
  have hmem := List.mem_of_find?_eq_some hfind
  have hkey := List.find?_some hfind
  simp only [beq_iff_eq] at hkey
  simp only at hv
  rw [show ((k, v) : String × α) = (a, b) by simp [hkey, hv]]
  exact hmem

theorem mapGet_unique {α : Type} {m : List (String × α)}
    (hnd : (m.map Prod.fst).Nodup) {k : String} {v v' : α}
    (h : mapGet m k = some v) (h2 : (k, v') ∈ m) : v' = v := by
  have h1 : (k, v) ∈ m := mapGet_some_mem h
  have h3 := List.inj_on_of_nodup_map hnd h2 h1 rfl
  exact congrArg Prod.snd h3

theorem mapGet_filter_removed {α : Type} (m : List (String × α))
    (l : List String) (id : String) (h : id ∈ l) :
    mapGet (m.filter (fun p => !(l.contains p.1))) id = none := by
  unfold mapGet
  have : (m.filter (fun p => !(l.contains p.1))).find?
      (fun p => p.1 == id) = none := by
    rw [List.find?_eq_none]
    intro p hp
    rcases List.mem_filter.1 hp with ⟨_, hkeep⟩
    simp only [Bool.not_eq_true', List.contains_eq_any_beq,
      List.any_eq_false, beq_iff_eq] at hkeep
    simp only [beq_iff_eq]
    intro hk
    exact hkeep p.1 (hk ▸ h) rfl
  rw [this]
  rfl

theorem mapGet_filter_kept {α : Type} (m : List (String × α))
    (keep : String × α → Bool) (id : String)
    (h : ∀ p ∈ m, p.1 = id → keep p = true) :
    mapGet (m.filter keep) id = mapGet m id := by
  unfold mapGet
  congr 1
  induction m with
  | nil => rfl
  | cons a t ih =>
    by_cases ha : a.1 = id
    · have hk := h a (List.mem_cons_self a t) ha
      simp [List.filter_cons, hk, List.find?_cons, ha]
    · have ht : ∀ p ∈ t, p.1 = id → keep p = true :=
        fun p hp => h p (List.mem_cons_of_mem a hp)
      have hb : (a.1 == id) = false := by simp [ha]
      cases hk : keep a
      · simp [List.filter_cons, hk, List.find?_cons, hb, ih ht]
      · simp [List.filter_cons, hk, List.find?_cons, hb, ih ht]


theorem numMinutes_nonpos {s : Int} (h : s ≤ 0) : numMinutes s ≤ 0 := by
  unfold numMinutes
  have h1 : 0 ≤ -s := by omega
  have h2 : 0 ≤ (-s).tdiv 60 := Int.tdiv_nonneg h1 (by norm_num)
  have h3 : (-s).tdiv 60 = -(s.tdiv 60) := Int.neg_tdiv s 60
  omega

theorem numMinutes_gt_five_iff (s : Int) : 5 < numMinutes s ↔ 360 ≤ s := by
  rcases le_or_lt 0 s with h | h
  · unfold numMinutes
    rw [Int.tdiv_eq_ediv h (by norm_num)]
    omega
  · have h2 := numMinutes_nonpos (le_of_lt h)
    constructor
    · intro h3
      omega
    · intro h3
      omega

/-- Result shape of `prune_stale_entities`: the registry after the call
and the events it broadcast, independent of whether a snapshot happened. -/
theorem prune_result_shape (ms : ManagerState) (now : Int)
    (later : String → Int) :
    (prune_stale_entities ms now later).1.state.compute_nodes =
      ms.state.compute_nodes.filter
        (fun p => !((staleNodeIds ms now).contains p.1)) ∧
    (prune_stale_entities ms now later).1.state.ai_agents =
      ms.state.ai_agents.filter
        (fun p => !((staleAgentIds ms now later).contains p.1)) ∧
    (prune_stale_entities ms now later).2 =
      (staleNodeIds ms now).map .NodePruned := by
  unfold prune_stale_entities
  dsimp only
  refine ⟨?_, ?_, ?_⟩ <;> first
  | rfl
  | (split <;> rfl)

/-- Example node, online, with a proxy address. -/
def nodeOnlineEx : ComputeNode :=
  { id := "n1", node_type := "PC", last_seen := 0, status := "Online",
    capabilities := "CPU:4", ip_address := "127.0.0.1",
    proxy_listen_address := some "127.0.0.1:50052" }

/-- Example node with a different payload under the same id `n1`. -/
def nodeOnlineEx2 : ComputeNode := { nodeOnlineEx with ip_address := "10.0.0.2" }

/-- Example node, offline. -/
def nodeOfflineEx : ComputeNode := { nodeOnlineEx with id := "n2", status := "Offline" }

/-- Example agent assigned to `n1` and running. -/
def runningAgentEx : AIAgent :=
  { id := "a1", name := "alpha", agent_type := "Synthesizer",
    assigned_node_id := some "n1", status := "Running",
    current_task := none, task_progress := none }

/-- Example agent with no node assignment. -/
def unassignedAgentEx : AIAgent :=
  { id := "a2", name := "beta", agent_type := "Protector",
    assigned_node_id := none, status := "Idle",
    current_task := none, task_progress := none }

/-- Example registry with one online node and one running agent. -/
def baseStateEx : FabricState :=
  { compute_nodes := [("n1", nodeOnlineEx)],
    ai_agents := [("a1", runningAgentEx)] }

/-- Example manager state in sync with its persisted snapshot, with a
client handle for `n1`. -/
def msEx : ManagerState :=
  { state := baseStateEx, db := some baseStateEx, clients := ["n1"] }

/-- Example manager state with no nodes and a single unassigned agent. -/
def emptyNodesMsEx : ManagerState :=
  { state := { compute_nodes := [], ai_agents := [("a2", unassignedAgentEx)] },
    db := some { compute_nodes := [], ai_agents := [("a2", unassignedAgentEx)] },
    clients := [] }

/-- C9: the InternalEvent-to-WireEvent projection `convert_event` is total
over the six variants and produces, per variant, exactly the event_type and
message of the specified table; for `AgentStatusUpdate` the metadata holds
`current_task` and `task_progress` exactly when those optionals are present. -/
theorem convert_event_projection_table (event_id timestamp : String) :
    (∀ node, convert_event event_id timestamp (.NodeRegistered node) =
      { event_id := event_id, timestamp := timestamp,
        event_type := "NODE_REGISTERED",
        message := "Node registered: " ++ node.id,
        metadata := [], telemetry := none }) ∧
    (∀ node_id status ts,
      convert_event event_id timestamp
          (.NodeStatusUpdate node_id status ts) =
        { event_id := event_id, timestamp := timestamp,
          event_type := "NODE_STATUS_UPDATE",
          message := "Node " ++ node_id ++ " status updated: " ++ status,
          metadata := [], telemetry := none }) ∧
    (∀ node_id, convert_event event_id timestamp (.NodePruned node_id) =
      { event_id := event_id, timestamp := timestamp,
        event_type := "NODE_PRUNED",
        message := "Node pruned: " ++ node_id,
        metadata := [], telemetry := none }) ∧
    (∀ agent, convert_event event_id timestamp (.AgentRegistered agent) =
      { event_id := event_id, timestamp := timestamp,
        event_type := "AGENT_REGISTERED",
        message := "Agent registered: " ++ agent.id,
        metadata := [], telemetry := none }) ∧
    (∀ agent_id status task progress,
      (convert_event event_id timestamp
          (.AgentStatusUpdate agent_id status task progress)).event_type =
        "AGENT_STATUS_UPDATE" ∧
      (convert_event event_id timestamp
          (.AgentStatusUpdate agent_id status task progress)).message =
        "Agent " ++ agent_id ++ " status updated: " ++ status ∧
      (("current_task" ∈ (convert_event event_id timestamp
          (.AgentStatusUpdate agent_id status task progress)).metadata.map
            Prod.fst) ↔ task.isSome = true) ∧
      (("task_progress" ∈ (convert_event event_id timestamp
          (.AgentStatusUpdate agent_id status task progress)).metadata.map
            Prod.fst) ↔ progress.isSome = true)) ∧
    (∀ command_type target_id,
      convert_event event_id timestamp
          (.FabricCommandIssued command_type target_id) =
        { event_id := event_id, timestamp := timestamp,
          event_type := "FABRIC_COMMAND_ISSUED",
          message := "Command issued: " ++ command_type ++ " to " ++ target_id,
          metadata := [], telemetry := none }) := by
  refine ⟨fun _ => rfl, fun _ _ _ => rfl, fun _ => rfl, fun _ => rfl,
    ?_, fun _ _ => rfl⟩
  intro agent_id status task progress
  refine ⟨rfl, rfl, ?_, ?_⟩ <;>
    cases task <;> cases progress <;> simp [convert_event]

/-- C7: an accepted `update_node_status(id, s)` with clock reading `now`
leaves the node with status `s` and `last_seen = now`, and publishes a
single `NodeStatusUpdate` event. -/
theorem update_node_status_sets_status_and_last_seen (ms : ManagerState)
    (node_id status : String) (now : Int) (node : ComputeNode)
    (hmem : mapGet ms.state.compute_nodes node_id = some node) :
    mapGet (update_node_status ms node_id status now).1.state.compute_nodes
        node_id = some { node with status := status, last_seen := now } ∧
    ({ node with status := status, last_seen := now } : ComputeNode).status
      = status ∧
    ({ node with status := status, last_seen := now } : ComputeNode).last_seen
      = now ∧
    (update_node_status ms node_id status now).2 =
      [.NodeStatusUpdate node_id status none] := by
  unfold update_node_status
  rw [hmem]
  dsimp only
  exact ⟨mapGet_mapInsert_self _ _ _, rfl, rfl, rfl⟩

theorem update_node_status_sets_status_and_last_seen_witness :
    mapGet (update_node_status msEx "n1" "Degraded"
        (42 : Int)).1.state.compute_nodes "n1" =
      some { nodeOnlineEx with status := "Degraded", last_seen := 42 } ∧
    (update_node_status msEx "n1" "Degraded" (42 : Int)).2 =
      [.NodeStatusUpdate "n1" "Degraded" none] := by
  have h := update_node_status_sets_status_and_last_seen msEx "n1" "Degraded"
    42 nodeOnlineEx rfl
  exact ⟨h.1, h.2.2.2⟩

/-- C10: `register_node` on an id already present unconditionally replaces
the stored node (no duplicate rejection, no merging), publishes
`NodeRegistered`, and snapshots, exactly as for a first registration. -/
theorem register_node_replaces_existing_id (ms : ManagerState)
    (node old : ComputeNode) (dial_ok : Bool)
    (hmem : mapGet ms.state.compute_nodes node.id = some old) :
    mapGet (register_node ms node dial_ok).1.state.compute_nodes node.id =
      some node ∧
    (register_node ms node dial_ok).1.state.compute_nodes =
      mapInsert ms.state.compute_nodes node.id node ∧
    (register_node ms node dial_ok).2 = [.NodeRegistered node] ∧
    (register_node ms node dial_ok).1.db =
      some (register_node ms node dial_ok).1.state := by
  exact ⟨mapGet_mapInsert_self _ _ _, rfl, rfl, rfl⟩

theorem register_node_replaces_existing_id_witness :
    mapGet (register_node msEx nodeOnlineEx2 true).1.state.compute_nodes
        "n1" = some nodeOnlineEx2 ∧
    (register_node msEx nodeOnlineEx2 true).2 =
      [.NodeRegistered nodeOnlineEx2] := by
  have h := register_node_replaces_existing_id msEx nodeOnlineEx2
    nodeOnlineEx true rfl
  exact ⟨h.1, h.2.2.1⟩

/-- Single-step form of the persistence invariant: one operation keeps the
decoded snapshot equal to the in-memory registry. -/
theorem applyOp_db_matches_state (ms : ManagerState) (op : FabricOp)
    (h : ms.db = some ms.state) :
    (applyOp ms op).1.db = some (applyOp ms op).1.state := by
  cases op with
  | registerNode node dial_ok => rfl
  | updateNodeStatus node_id status now =>
    dsimp only [applyOp]
    unfold update_node_status
    split
    · rfl
    · exact h
  | registerAiAgent agent => rfl
  | updateAiAgentStatus agent_id status task progress =>
    dsimp only [applyOp]
    unfold update_ai_agent_status
    split
    · rfl
    · exact h
  | issueCommand command_type target_id => exact h
  | pruneStale now later =>
    dsimp only [applyOp]
    unfold prune_stale_entities
    dsimp only
    split
    · next hcond =>
      rw [Bool.and_eq_true] at hcond
      obtain ⟨h1, h2⟩ := hcond
      rw [List.isEmpty_iff] at h1 h2
      rw [h, h1, h2]
      simp
    · rfl
  | deployAgent target name agent_type fresh_uuid rpc =>
    dsimp only [applyOp]
    unfold deploy_agent
    repeat' split
    all_goals rfl
  | stopAgent agent_id rpc =>
    dsimp only [applyOp]
    unfold stop_agent
    repeat' split
    all_goals rfl
  | migrateAgent agent_id dest =>
    dsimp only [applyOp]
    unfold migrate_agent
    split
    · exact h
    · split
      · rfl
      · exact h

/-- C6: starting from a manager whose persisted snapshot decodes to the
in-memory registry, after any sequence of operations completes the bytes
stored under `fabric_state` still decode to the current registry — every
mutating path ends in `save_state`, and non-saving paths do not mutate. -/
theorem fabric_state_persisted_in_sync (ops : List FabricOp)
    (ms : ManagerState) (h : ms.db = some ms.state) :
    (applyOps ms ops).db = some (applyOps ms ops).state := by
  induction ops generalizing ms with
  | nil => exact h
  | cons op rest ih => exact ih _ (applyOp_db_matches_state ms op h)

theorem fabric_state_persisted_in_sync_witness :
    (applyOps msEx [FabricOp.registerNode nodeOfflineEx false,
        FabricOp.pruneStale 0 (fun _ => 0)]).db =
      some (applyOps msEx [FabricOp.registerNode nodeOfflineEx false,
        FabricOp.pruneStale 0 (fun _ => 0)]).state :=
  fabric_state_persisted_in_sync _ msEx rfl

/-- Proto-agent produced by `deploy_agent msEx "n1" "alpha" "Synthesizer"
"u0"`: status `Deploying`, assigned to `n1`. -/
def deployedAgentEx : AIAgent :=
  { id := "agent-u0", name := "alpha", agent_type := "Synthesizer",
    assigned_node_id := some "n1", status := "Deploying",
    current_task := none, task_progress := none }

/-- C1 (code bug): with the target node online, a client cached and the
remote RPC answering `SUCCESS`, the freshly minted agent id is not yet in
the registry, so the `get_mut` branch that would set `Running` (lib.rs
lines 337-338) can never fire; the `else` branch inserts the proto-agent
with status `Deploying` (line 340) and `AgentRegistered` carries it. -/
theorem deploy_agent_rpc_success_agent_stays_deploying :
    mapGet (deploy_agent msEx "n1" "alpha" "Synthesizer" "u0"
        (some "SUCCESS")).1.state.ai_agents "agent-u0" =
      some deployedAgentEx ∧
    (deploy_agent msEx "n1" "alpha" "Synthesizer" "u0" (some "SUCCESS")).2 =
      [.AgentRegistered deployedAgentEx] ∧
    deployedAgentEx.status = "Deploying" :=
  ⟨rfl, rfl, rfl⟩

/-- C3 (code bug): `register_node` publishes the event and calls
`save_state` while the guard from line 190 is still alive (it drops only
at the end of the function), and `save_state` itself re-acquires the
registry mutex (line 96) — an acquire at positive depth, which with the
non-re-entrant `tokio::sync::Mutex` never completes. -/
theorem register_node_lock_discipline_violation :
    blockingWhileLocked register_node_trace 0 = true ∧
    selfDeadlock register_node_trace 0 = true :=
  ⟨rfl, rfl⟩

/-- C5 amended: when the outbound RPC invocation itself fails (`Err`),
neither `deploy_agent` nor `stop_agent` changes the registry at all — no
agent is inserted by deploy, the stopped agent's status is untouched, and
no event is published; the failure statuses `Failed`/`Error` arise only
from a completed RPC whose response status is not `SUCCESS`.  No retry is
attempted (the single invocation is the only one in the source). -/
theorem rpc_invoke_error_leaves_agents_unchanged (ms : ManagerState)
    (target name agent_type fresh_uuid agent_id : String) :
    (deploy_agent ms target name agent_type fresh_uuid none).1.state =
      ms.state ∧
    (deploy_agent ms target name agent_type fresh_uuid none).2 = [] ∧
    (stop_agent ms agent_id none).1.state = ms.state ∧
    (stop_agent ms agent_id none).2 = [] := by
  refine ⟨?_, ?_, ?_, ?_⟩ <;>
    first
    | (unfold deploy_agent
       repeat' split
       all_goals first | rfl | contradiction)
    | (unfold stop_agent
       repeat' split
       all_goals first | rfl | contradiction)

/-- C5 counterexample: `stop_agent` on a running, assigned agent with a
cached client whose RPC invocation fails leaves the agent's status
`Running` — not `Error` as the claim states. -/
theorem stop_agent_rpc_error_status_unchanged_cex :
    mapGet (stop_agent msEx "a1" none).1.state.ai_agents "a1" =
      some runningAgentEx ∧
    runningAgentEx.status = "Running" ∧ "Running" ≠ "Error" :=
  ⟨rfl, rfl, by decide⟩

/-- C2 amended: `prune_stale_entities` removes no agents at all.  Under a
clock whose per-agent readings during the scan are not earlier than the
scan start, the staleness predicate of line 280 is false for every agent:
with no assignment it computes `now - now = 0` whole minutes, with an
assignment it computes `now - later ≤ 0` whole minutes — never above 10.
In particular an agent without `assigned_node_id` is NOT removed. -/
theorem prune_stale_entities_removes_no_agents (ms : ManagerState)
    (now : Int) (later : String → Int) (h : ∀ id, now ≤ later id) :
    (prune_stale_entities ms now later).1.state.ai_agents =
      ms.state.ai_agents := by
  have hstale : staleAgentIds ms now later = [] := by
    unfold staleAgentIds
    rw [List.filter_eq_nil_iff.2, List.map_nil]
    intro p _
    unfold agentStale
    simp only [decide_eq_true_eq, not_lt]
    cases hassigned : p.2.assigned_node_id with
    | none =>
      simp only [sub_self]
      unfold numMinutes
      simp [Int.zero_tdiv]
    | some nid =>
      dsimp only
      have h1 : now - later p.1 ≤ 0 := by have := h p.1; omega
      have h2 := numMinutes_nonpos h1
      omega
  rw [(prune_result_shape ms now later).2.1, hstale]
  simp

theorem prune_stale_entities_removes_no_agents_witness :
    (prune_stale_entities emptyNodesMsEx 100000
        (fun _ => 100000)).1.state.ai_agents =
      [("a2", unassignedAgentEx)] :=
  (prune_stale_entities_removes_no_agents emptyNodesMsEx 100000
      (fun _ => 100000) (fun _ => le_refl 100000)).trans rfl

/-- C2 counterexample: an agent with `assigned_node_id = None` survives
`prune_stale_entities` — the claim says exactly such agents are removed. -/
theorem prune_stale_entities_keeps_unassigned_agent_cex :
    unassignedAgentEx.assigned_node_id = none ∧
    mapGet (prune_stale_entities emptyNodesMsEx 100000
        (fun _ => 100000)).1.state.ai_agents "a2" = some unassignedAgentEx :=
  ⟨rfl, rfl⟩

/-- C4 amended: at a prune tick, a node is removed (and `NodePruned` is
published for it) exactly when its age in whole minutes exceeds 5 — that
is, `now - last_seen ≥ 360` seconds, since `num_minutes` truncates toward
zero; a node aged less than 360 seconds is retained with no event, even
when its age already exceeds 5 minutes (300 seconds). -/
theorem prune_stale_nodes_whole_minutes (ms : ManagerState) (now : Int)
    (later : String → Int) (id : String) (node : ComputeNode)
    (hnd : (ms.state.compute_nodes.map Prod.fst).Nodup)
    (hmem : mapGet ms.state.compute_nodes id = some node) :
    (360 ≤ now - node.last_seen →
      mapGet (prune_stale_entities ms now later).1.state.compute_nodes id
          = none ∧
      InternalFabricEvent.NodePruned id ∈
        (prune_stale_entities ms now later).2) ∧
    (now - node.last_seen < 360 →
      mapGet (prune_stale_entities ms now later).1.state.compute_nodes id
          = some node ∧
      InternalFabricEvent.NodePruned id ∉
        (prune_stale_entities ms now later).2) := by
  obtain ⟨hshape1, _, hshape3⟩ := prune_result_shape ms now later
  have hmemlist : (id, node) ∈ ms.state.compute_nodes := mapGet_some_mem hmem
  have hstale_iff : id ∈ staleNodeIds ms now ↔ nodeStale now node = true := by
    unfold staleNodeIds
    simp only [List.mem_map, List.mem_filter]
    constructor
    · rintro ⟨p, ⟨hpmem, hpstale⟩, hpid⟩
      rcases p with ⟨a, b⟩
      dsimp only at hpid
      subst hpid
      have hb := mapGet_unique hnd hmem hpmem
      rwa [hb] at hpstale
    · intro hs
      exact ⟨(id, node), ⟨hmemlist, hs⟩, rfl⟩
  constructor
  · intro hage
    have hs : nodeStale now node = true := by
      unfold nodeStale
      simp [numMinutes_gt_five_iff, hage]
    have hidstale : id ∈ staleNodeIds ms now := hstale_iff.2 hs
    refine ⟨?_, ?_⟩
    · rw [hshape1]
      exact mapGet_filter_removed _ _ _ hidstale
    · rw [hshape3]
      exact List.mem_map_of_mem _ hidstale
  · intro hage
    have hid : id ∉ staleNodeIds ms now := by
      intro hmem2
      have hs := hstale_iff.1 hmem2
      unfold nodeStale at hs
      simp only [decide_eq_true_eq, numMinutes_gt_five_iff] at hs
      omega
    have hcont : (staleNodeIds ms now).contains id = false := by
      simp only [List.contains, List.elem_eq_mem, decide_eq_false_iff_not]
      exact hid
    refine ⟨?_, ?_⟩
    · rw [hshape1]
      rw [mapGet_filter_kept]
      · exact hmem
      · intro p _ hpid
        rw [hpid, hcont]
        rfl
    · rw [hshape3]
      intro hin
      rcases List.mem_map.1 hin with ⟨a, ha, heq⟩
      injection heq with heq1
      exact hid (heq1 ▸ ha)

theorem prune_stale_nodes_whole_minutes_witness :
    mapGet (prune_stale_entities msEx 360
        (fun _ => 360)).1.state.compute_nodes "n1" = none ∧
    InternalFabricEvent.NodePruned "n1" ∈
      (prune_stale_entities msEx 360 (fun _ => 360)).2 := by
  have h := prune_stale_nodes_whole_minutes msEx 360 (fun _ => 360) "n1"
    nodeOnlineEx (by decide) rfl
  exact h.1 (by decide)

/-- C4 counterexample: a node aged 330 seconds — strictly older than 5
minutes — is retained by `prune_stale_entities` and no `NodePruned` event
is published, because `num_minutes` truncates 330 s to 5 whole minutes
and the source tests `> 5`. -/
theorem prune_keeps_node_older_than_five_minutes_cex :
    (300 : Int) < 330 - nodeOnlineEx.last_seen ∧
    mapGet (prune_stale_entities msEx 330
        (fun _ => 330)).1.state.compute_nodes "n1" = some nodeOnlineEx ∧
    (prune_stale_entities msEx 330 (fun _ => 330)).2 = [] :=
  ⟨by decide, rfl, rfl⟩

/-- C8: any agent `deploy_agent` inserts carries
`assigned_node_id = some target`, and the target was present with status
`Online` at call time; when the target is absent or not online, the
agents map is unchanged and no event is published. -/
theorem deploy_agent_requires_online_target (ms : ManagerState)
    (target name agent_type fresh_uuid : String) (rpc : Option String) :
    (∀ aid agent,
      mapGet ms.state.ai_agents aid = none →
      mapGet (deploy_agent ms target name agent_type fresh_uuid
          rpc).1.state.ai_agents aid = some agent →
      ∃ node, mapGet ms.state.compute_nodes target = some node ∧
        node.status = "Online" ∧ agent.assigned_node_id = some target) ∧
    ((∀ node, mapGet ms.state.compute_nodes target = some node →
        node.status ≠ "Online") →
      (deploy_agent ms target name agent_type fresh_uuid
          rpc).1.state.ai_agents = ms.state.ai_agents ∧
      (deploy_agent ms target name agent_type fresh_uuid rpc).2 = []) := by
  constructor
  · intro aid agent hpre hpost
    unfold deploy_agent at hpost
    cases hn : mapGet ms.state.compute_nodes target with
    | none =>
      rw [hn] at hpost
      dsimp only [save_state] at hpost
      rw [hpre] at hpost
      exact Option.noConfusion hpost
    | some node =>
      rw [hn] at hpost
      dsimp only [save_state] at hpost
      by_cases ho : node.status = "Online"
      · rw [if_pos (by simp [ho])] at hpost
        by_cases hc : ms.clients.contains target = true
        · rw [if_pos hc] at hpost
          cases rpc with
          | none =>
            dsimp only [save_state] at hpost
            rw [hpre] at hpost
            exact Option.noConfusion hpost
          | some resp_status =>
            dsimp only [save_state] at hpost
            cases hag : mapGet ms.state.ai_agents ("agent-" ++ fresh_uuid) with
            | some agent0 =>
              rw [hag] at hpost
              dsimp only [save_state] at hpost
              by_cases haid : aid = "agent-" ++ fresh_uuid
              · rw [haid] at hpre
                rw [hpre] at hag
                exact Option.noConfusion hag
              · rw [mapGet_mapInsert_ne _ _ _ _ haid] at hpost
                rw [hpre] at hpost
                exact Option.noConfusion hpost
            | none =>
              rw [hag] at hpost
              dsimp only [save_state] at hpost
              by_cases haid : aid = "agent-" ++ fresh_uuid
              · rw [haid, mapGet_mapInsert_self] at hpost
                injection hpost with hagent
                refine ⟨node, rfl, ho, ?_⟩
                rw [← hagent]
              · rw [mapGet_mapInsert_ne _ _ _ _ haid] at hpost
                rw [hpre] at hpost
                exact Option.noConfusion hpost
        · rw [if_neg hc] at hpost
          dsimp only [save_state] at hpost
          rw [hpre] at hpost
          exact Option.noConfusion hpost
      · rw [if_neg (by simp [ho])] at hpost
        dsimp only [save_state] at hpost
        rw [hpre] at hpost
        exact Option.noConfusion hpost
  · intro hnotonline
    unfold deploy_agent
    cases hn : mapGet ms.state.compute_nodes target with
    | none => exact ⟨rfl, rfl⟩
    | some node =>
      have ho := hnotonline node hn
      dsimp only
      rw [if_neg (by simp [ho])]
      exact ⟨rfl, rfl⟩

theorem deploy_agent_requires_online_target_witness :
    (deploy_agent emptyNodesMsEx "n9" "x" "T" "u9"
        (some "SUCCESS")).1.state.ai_agents =
      emptyNodesMsEx.state.ai_agents ∧
    (deploy_agent emptyNodesMsEx "n9" "x" "T" "u9" (some "SUCCESS")).2 = [] :=
  (deploy_agent_requires_online_target emptyNodesMsEx "n9" "x" "T" "u9"
    (some "SUCCESS")).2 (fun _ hn => Option.noConfusion hn)
